import Mathlib

/-!
Shallow embedding of the intervention lifecycle and AI-assisted intake
pipeline of the techmate maintenance-tracking application.

Embedded source locations:
* `src/src/pages/NewIntervention.tsx` — the intake pipeline
  (`startRecording`, `processAudio`, `handleSave`, the microphone button).
* `src/src/pages/Interventions.tsx` (second concatenated component,
  `InterventionDetail`) — the lifecycle manager (`updateStatus`, the
  quick-action buttons, the status selector).
* `src/supabase/functions/generate-solution/index.ts` — the
  solution-generation serverless handler.
* `src/unnamed/part_000` — the relational schema for the
  `interventions` table (column defaults used when an insert omits a
  column).

Statuses, priorities and toast texts are kept as the literal strings the
source uses.  Timestamps are modelled as `Nat` (the value of
`new Date().toISOString()` at the moment of the call is opaque to the
logic, only its presence matters).
-/

/-- A toast notification as produced by `useToast`: whether the
`destructive` variant was used, plus title and description. -/
structure Toast where
  destructive : Bool
  title : String
  description : String
deriving DecidableEq

/-- A row of the `interventions` table (schema in `src/unnamed/part_000`,
fields read by `InterventionDetail`).  `resolved_at : Option Nat` is the
nullable `TIMESTAMP` column. -/
structure InterventionRow where
  machine_id : Option String
  technician_id : Option String
  problem_description : Option String
  ai_solution : Option String
  status : String
  priority : String
  resolved_at : Option Nat
deriving DecidableEq

/-- The object literal `handleSave` passes to
`supabase.from('interventions').insert(...)`
(`NewIntervention.tsx` lines 197-204).  Note it has no `resolved_at`
field. -/
structure InsertPayload where
  machine_id : String
  technician_id : String
  problem_description : String
  ai_solution : String
  status : String
  priority : String
deriving DecidableEq

/-- The insert payload built by `handleSave` from the current form state:
`status` and `priority` are the literals `'pending'` and `'medium'`. -/
def savePayload (selectedMachine selectedTechnician problemDescription aiSolution : String) :
    InsertPayload :=
  { machine_id := selectedMachine
    technician_id := selectedTechnician
    problem_description := problemDescription
    ai_solution := aiSolution
    status := "pending"
    priority := "medium" }

/-- The row the store creates for an insert payload: every supplied column
takes the supplied value, and `resolved_at`, absent from the payload and
having no column default in the schema, is NULL. -/
def insertedRow (p : InsertPayload) : InterventionRow :=
  { machine_id := some p.machine_id
    technician_id := some p.technician_id
    problem_description := some p.problem_description
    ai_solution := some p.ai_solution
    status := p.status
    priority := p.priority
    resolved_at := none }

/-- The destructive toast shown by `handleSave` when a required field is
missing (`NewIntervention.tsx` lines 186-190). -/
def validationToast : Toast :=
  { destructive := true
    title := "Campos obrigatórios"
    description := "Por favor, preencha todos os campos obrigatórios." }

/-- The toast shown by `handleSave` after a successful insert. -/
def saveSuccessToast : Toast :=
  { destructive := false
    title := "Intervenção criada"
    description := "A intervenção foi registada com sucesso." }

/-- The destructive toast shown by `handleSave` when the insert fails. -/
def saveErrorToast : Toast :=
  { destructive := true
    title := "Erro ao guardar"
    description := "Não foi possível guardar a intervenção." }

/-- The observable outcome of one `handleSave` call: the list of store
calls it performed, the single toast it showed, and whether it navigated
away (the completion signal). -/
structure SaveOutcome where
  storeCalls : List InsertPayload
  toast : Toast
  navigated : Bool
deriving DecidableEq

/-- `handleSave` (`NewIntervention.tsx` lines 184-225).  The guard
`!selectedMachine || !selectedTechnician || !problemDescription` is empty
string falsiness; on guard failure it returns before any store call.
`insertOk` abstracts whether the store insert succeeds. -/
def handleSave (selectedMachine selectedTechnician problemDescription aiSolution : String)
    (insertOk : Bool) : SaveOutcome :=
  if selectedMachine = "" ∨ selectedTechnician = "" ∨ problemDescription = "" then
    { storeCalls := [], toast := validationToast, navigated := false }
  else
    let payload := savePayload selectedMachine selectedTechnician problemDescription aiSolution
    if insertOk then
      { storeCalls := [payload], toast := saveSuccessToast, navigated := true }
    else
      { storeCalls := [payload], toast := saveErrorToast, navigated := false }

/-- An error value surfaced by a `supabase.functions.invoke` call; only the
HTTP status (when one exists) distinguishes errors, and the catch block of
`processAudio` inspects none of it. -/
structure FnError where
  status : Option Nat
deriving DecidableEq

/-- The intake form state touched by the pipeline: the step indicator and
the two text fields, plus the recording flag. -/
structure PipelineState where
  processingStep : String
  isRecording : Bool
  problemDescription : String
  aiSolution : String
deriving DecidableEq

/-- The destructive toast shown by the single catch block of
`processAudio` (`NewIntervention.tsx` lines 176-180) for every failure it
catches, whatever the failing stage or status code. -/
def processingErrorToast : Toast :=
  { destructive := true
    title := "Erro no processamento"
    description := "Ocorreu um erro ao processar o áudio. Tente novamente." }

/-- The toast shown when transcription and generation both succeed. -/
def pipelineSuccessToast : Toast :=
  { destructive := false
    title := "Processamento concluído"
    description := "Áudio transcrito e solução gerada com sucesso!" }

/-- The destructive toast shown by the catch block of `startRecording`
(`NewIntervention.tsx` lines 104-108) when the microphone cannot be
acquired. -/
def micErrorToast : Toast :=
  { destructive := true
    title := "Erro no microfone"
    description := "Não foi possível aceder ao microfone. Verifique as permissões." }

/-- The observable outcome of one `processAudio` call: the resulting form
state and the single toast shown. -/
structure AudioOutcome where
  state : PipelineState
  toast : Toast
deriving DecidableEq

/-- `processAudio` (`NewIntervention.tsx` lines 119-182).
`transcribeResult` abstracts the transcription call (error or transcribed
text); `generateResult` abstracts the generation call as a function of the
transcribed text.  On transcription success the code first sets
`problemDescription` to the text and moves to `generating`; any thrown
error lands in the single catch block, which sets the step back to `idle`
and shows `processingErrorToast`, touching no other field. -/
def processAudio (st : PipelineState) (transcribeResult : Except FnError String)
    (generateResult : String → Except FnError String) : AudioOutcome :=
  match transcribeResult with
  | Except.error _ =>
      { state := { st with processingStep := "idle" }, toast := processingErrorToast }
  | Except.ok transcribedText =>
      match generateResult transcribedText with
      | Except.error _ =>
          { state := { st with processingStep := "idle", problemDescription := transcribedText }
            toast := processingErrorToast }
      | Except.ok solution =>
          { state := { st with processingStep := "complete"
                               problemDescription := transcribedText
                               aiSolution := solution }
            toast := pipelineSuccessToast }

/-- `startRecording` (`NewIntervention.tsx` lines 69-110): on successful
device acquisition it sets `isRecording` and moves the step to
`recording`; on device failure the catch block only shows the microphone
toast and leaves the state unchanged. -/
def startRecording (deviceOk : Bool) (st : PipelineState) : PipelineState × Option Toast :=
  if deviceOk then
    ({ st with isRecording := true, processingStep := "recording" }, none)
  else
    (st, some micErrorToast)

/-- The `disabled` predicate of the start/stop microphone button
(`NewIntervention.tsx` line 309). -/
def micButtonDisabled (processingStep : String) : Bool :=
  processingStep == "transcribing" || processingStep == "generating"

/-- The partial-field patch `updateStatus` sends to the store
(`InterventionDetail`, lines 326-329 of `Interventions.tsx`):
`{ status: newStatus }`, with `resolved_at` added (set to the current
time) exactly when `newStatus === 'resolved'`.  `resolved_at = none` means
the field is absent from the patch. -/
structure UpdatePayload where
  status : String
  resolved_at : Option Nat
deriving DecidableEq

/-- Build the patch exactly as `updateStatus` does. -/
def updateStatusPayload (newStatus : String) (now : Nat) : UpdatePayload :=
  if newStatus = "resolved" then
    { status := newStatus, resolved_at := some now }
  else
    { status := newStatus, resolved_at := none }

/-- Apply a partial-field patch to a stored row: supplied fields
overwrite, absent fields keep their prior value. -/
def applyUpdate (r : InterventionRow) (p : UpdatePayload) : InterventionRow :=
  { r with
    status := p.status
    resolved_at := match p.resolved_at with
      | some t => some t
      | none => r.resolved_at }

/-- The effect of one `updateStatus` call on the stored row. -/
def updateStatusStore (r : InterventionRow) (newStatus : String) (now : Nat) : InterventionRow :=
  applyUpdate r (updateStatusPayload newStatus now)

/-- The effect of a successful `updateStatus` call on the locally cached
copy (`setIntervention({ ...intervention, status: newStatus })`, line 338
of `Interventions.tsx`): only `status` is replaced. -/
def updateStatusLocal (r : InterventionRow) (newStatus : String) : InterventionRow :=
  { r with status := newStatus }

/-- The transition targets offered by the quick-action buttons of
`InterventionDetail` (lines 404-434 of `Interventions.tsx`): `Iniciar` on
pending, `Resolver` on in_progress, the cancel button on pending or
in_progress. -/
def quickActionTargets (status : String) : List String :=
  (if status = "pending" then ["in_progress"] else []) ++
  (if status = "in_progress" then ["resolved"] else []) ++
  (if status = "pending" ∨ status = "in_progress" then ["cancelled"] else [])

/-- The options of the `Alterar Estado` selector of `InterventionDetail`
(lines 528-544 of `Interventions.tsx`); it is rendered for every current
status and each option invokes `updateStatus`. -/
def selectStatusOptions : List String :=
  ["pending", "in_progress", "resolved", "cancelled"]

/-- Stored rows reachable through the core: created by a valid
`handleSave` (which always inserts `savePayload`), then mutated by any
sequence of `updateStatus` calls with targets the status selector
offers. -/
inductive ReachableRow : InterventionRow → Prop
  | created (machine tech desc sol : String)
      (hm : machine ≠ "") (ht : tech ≠ "") (hd : desc ≠ "") :
      ReachableRow (insertedRow (savePayload machine tech desc sol))
  | stepped (r : InterventionRow) (s : String) (now : Nat) :
      ReachableRow r → s ∈ selectStatusOptions → ReachableRow (updateStatusStore r s now)

/-- A concrete valid insert payload used as a test vector. -/
def exPayload : InsertPayload := savePayload "M1" "T1" "motor faz ruido anomalo" "verificar rolamentos"

/-- The stored row right after the insert of `exPayload`. -/
def exRow0 : InterventionRow := insertedRow exPayload

/-- `exRow0` after `updateStatus('resolved')` at time 5. -/
def exRowResolved : InterventionRow := updateStatusStore exRow0 "resolved" 5

/-- `exRowResolved` after `updateStatus('pending')` at time 7, i.e. a
resolved record reopened through the status selector. -/
def exRowReopened : InterventionRow := updateStatusStore exRowResolved "pending" 7

/-- The result of the parsed upstream chat-completion call made by the
generate-solution handler: either a response body whose
`choices[0].message.content` may be present, or a non-ok HTTP response
with its status and error text. -/
inductive GatewayResult
  | ok (content : Option String)
  | httpError (status : Nat) (text : String)
deriving DecidableEq

/-- An HTTP response returned by the generate-solution handler: status
code, optional `solution` body field, optional `error` body field. -/
structure HandlerResponse where
  status : Nat
  solution : Option String
  error : Option String
deriving DecidableEq

/-- A 500 response carrying the caught error message, as built by the
catch block of the handler (lines 100-110 of
`generate-solution/index.ts`). -/
def caughtResponse (msg : String) : HandlerResponse :=
  { status := 500, solution := none, error := some msg }

/-- The generate-solution handler (`generate-solution/index.ts`, non-CORS
path), paired with the number of upstream gateway calls it makes.  A
missing or empty `problemDescription` and a missing `LOVABLE_API_KEY`
throw before the upstream call and are converted to 500 by the catch
block; an upstream 429 and 402 are returned directly with those statuses;
any other non-ok upstream response throws `AI Gateway error: ...` and
becomes a 500; an ok upstream response yields a 200 with the extracted
content. -/
def generateSolutionServe (problemDescription : Option String) (hasApiKey : Bool)
    (gateway : GatewayResult) : HandlerResponse × Nat :=
  if problemDescription = none ∨ problemDescription = some "" then
    (caughtResponse "Problem description is required", 0)
  else if hasApiKey = false then
    (caughtResponse "LOVABLE_API_KEY is not configured", 0)
  else
    match gateway with
    | GatewayResult.ok content =>
        ({ status := 200, solution := content, error := none }, 1)
    | GatewayResult.httpError s text =>
        if s = 429 then
          ({ status := 429, solution := none
             error := some "Rate limit exceeded. Please try again later." }, 1)
        else if s = 402 then
          ({ status := 402, solution := none
             error := some "Payment required. Please add credits to your workspace." }, 1)
        else
          (caughtResponse ("AI Gateway error: " ++ text), 1)

/-- Helper: the handler calls the upstream gateway at most once, whatever
the input — no automatic retry. -/
theorem generateSolutionServe_calls_le_one (pd : Option String) (key : Bool)
    (gw : GatewayResult) : (generateSolutionServe pd key gw).2 ≤ 1 := by
  unfold generateSolutionServe
  repeat' split
  all_goals simp

/-- Helper: a valid `exRowResolved` derivation — the example resolved row
is reachable through the core's operations. -/
theorem reachable_exRowResolved : ReachableRow exRowResolved := by
  have h0 : ReachableRow exRow0 :=
    ReachableRow.created "M1" "T1" "motor faz ruido anomalo" "verificar rolamentos"
      (by decide) (by decide) (by decide)
  exact ReachableRow.stepped exRow0 "resolved" 5 h0 (by decide)

/-- Claim C1: a `handleSave` call with a machine and technician selected
and a non-empty description, whose insert succeeds, performs exactly one
insert, whose payload has status `pending`, priority `medium`, the current
description and AI-solution text, and whose created row has `resolved_at`
unset. -/
theorem handleSave_valid_creates_single_pending
    (machine tech desc sol : String)
    (hm : machine ≠ "") (ht : tech ≠ "") (hd : desc ≠ "") :
    (handleSave machine tech desc sol true).storeCalls = [savePayload machine tech desc sol] ∧
    (savePayload machine tech desc sol).status = "pending" ∧
    (savePayload machine tech desc sol).priority = "medium" ∧
    (savePayload machine tech desc sol).problem_description = desc ∧
    (savePayload machine tech desc sol).ai_solution = sol ∧
    (insertedRow (savePayload machine tech desc sol)).resolved_at = none := by
  refine ⟨?_, rfl, rfl, rfl, rfl, rfl⟩
  unfold handleSave
  rw [if_neg]
  · rfl
  · intro h
    rcases h with h | h | h
    · exact hm h
    · exact ht h
    · exact hd h

/-- Claim C1 witness. -/
theorem handleSave_valid_creates_single_pending_witness :
    ("M1" : String) ≠ "" ∧ ("T1" : String) ≠ "" ∧ ("motor" : String) ≠ "" ∧
    ((handleSave "M1" "T1" "motor" "sol" true).storeCalls = [savePayload "M1" "T1" "motor" "sol"] ∧
     (savePayload "M1" "T1" "motor" "sol").status = "pending" ∧
     (savePayload "M1" "T1" "motor" "sol").priority = "medium" ∧
     (savePayload "M1" "T1" "motor" "sol").problem_description = "motor" ∧
     (savePayload "M1" "T1" "motor" "sol").ai_solution = "sol" ∧
     (insertedRow (savePayload "M1" "T1" "motor" "sol")).resolved_at = none) :=
  ⟨by decide, by decide, by decide,
   handleSave_valid_creates_single_pending "M1" "T1" "motor" "sol"
     (by decide) (by decide) (by decide)⟩

/-- Claim C2: `updateStatus` applies whatever target status is requested,
sets `resolved_at` to the current time exactly when the target is
`resolved`, and for every other target leaves `resolved_at` at its prior
value — in particular it never clears a set `resolved_at`. -/
theorem updateStatus_sets_status_and_resolved_at
    (r : InterventionRow) (newStatus : String) (now : Nat) :
    (updateStatusStore r newStatus now).status = newStatus ∧
    (updateStatusStore r newStatus now).resolved_at =
      (if newStatus = "resolved" then some now else r.resolved_at) := by
  by_cases h : newStatus = "resolved" <;>
    simp [updateStatusStore, applyUpdate, updateStatusPayload, h]

/-- Claim C3 counterexample: a reachable row (created valid, resolved at
time 5, then reopened to `pending` through the status selector) has
`resolved_at` still set while its status is not `resolved`, refuting
`resolved_at` set iff status resolved. -/
theorem reachable_row_violating_resolved_at_iff :
    ReachableRow exRowReopened ∧
    exRowReopened.resolved_at = some 5 ∧
    exRowReopened.status ≠ "resolved" :=
  ⟨ReachableRow.stepped exRowResolved "pending" 7 reachable_exRowResolved (by decide),
   by decide, by decide⟩

/-- Claim C3 amended: for every reachable row, status `resolved` implies
`resolved_at` is set; the converse direction fails, since a transition out
of `resolved` keeps `resolved_at` while changing the status. -/
theorem reachable_resolved_has_resolved_at
    (r : InterventionRow) (h : ReachableRow r) (hs : r.status = "resolved") :
    r.resolved_at ≠ none := by
  cases h with
  | created machine tech desc sol hm ht hd =>
      exact absurd hs (by simp [insertedRow, savePayload])
  | stepped r' s now hr hmem =>
      by_cases hres : s = "resolved"
      · subst hres
        simp [updateStatusStore, applyUpdate, updateStatusPayload]
      · simp [updateStatusStore, applyUpdate, updateStatusPayload, hres] at hs

/-- Claim C3 amended witness. -/
theorem reachable_resolved_has_resolved_at_witness :
    ReachableRow exRowResolved ∧ exRowResolved.status = "resolved" ∧
    exRowResolved.resolved_at ≠ none :=
  ⟨reachable_exRowResolved, by decide,
   reachable_resolved_has_resolved_at exRowResolved reachable_exRowResolved (by decide)⟩

/-- Claim C4 counterexample: a reachable resolved row is not terminal —
`pending` is among the options the status selector offers for it, and the
resulting `updateStatus` call changes its status away from `resolved`. -/
theorem resolved_row_not_terminal :
    ReachableRow exRowResolved ∧
    exRowResolved.status = "resolved" ∧
    "pending" ∈ selectStatusOptions ∧
    (updateStatusStore exRowResolved "pending" 7).status ≠ "resolved" :=
  ⟨reachable_exRowResolved, by decide, by decide, by decide⟩

/-- Claim C4 amended: `resolved` and `cancelled` are terminal only for the
quick-action buttons, which offer no transition out of them; the status
selector still offers all four statuses for every record, and
`updateStatus` applies whatever target is requested, so the status of a
resolved or cancelled record can still change. -/
theorem resolved_cancelled_terminal_only_for_quick_actions
    (r : InterventionRow) (s : String) (now : Nat) :
    quickActionTargets "resolved" = [] ∧
    quickActionTargets "cancelled" = [] ∧
    selectStatusOptions = ["pending", "in_progress", "resolved", "cancelled"] ∧
    (updateStatusStore r s now).status = s := by
  refine ⟨by decide, by decide, rfl, ?_⟩
  by_cases h : s = "resolved" <;>
    simp [updateStatusStore, applyUpdate, updateStatusPayload, h]

/-- Claim C5: a `handleSave` call with the machine, the technician or the
description missing performs zero store calls and shows the destructive
required-fields validation toast. -/
theorem handleSave_missing_field_no_store_calls
    (machine tech desc sol : String) (insertOk : Bool)
    (h : machine = "" ∨ tech = "" ∨ desc = "") :
    (handleSave machine tech desc sol insertOk).storeCalls = [] ∧
    (handleSave machine tech desc sol insertOk).toast = validationToast ∧
    (handleSave machine tech desc sol insertOk).toast.destructive = true := by
  unfold handleSave
  rw [if_pos h]
  exact ⟨rfl, rfl, rfl⟩

/-- Claim C5 witness. -/
theorem handleSave_missing_field_no_store_calls_witness :
    (("" : String) = "" ∨ ("T1" : String) = "" ∨ ("motor" : String) = "") ∧
    ((handleSave "" "T1" "motor" "sol" true).storeCalls = [] ∧
     (handleSave "" "T1" "motor" "sol" true).toast = validationToast ∧
     (handleSave "" "T1" "motor" "sol" true).toast.destructive = true) :=
  ⟨Or.inl rfl,
   handleSave_missing_field_no_store_calls "" "T1" "motor" "sol" true (Or.inl rfl)⟩

/-- Claim C6: a failure caught at the transcribing stage returns the step
to `idle` and leaves `problem_description` at its pre-failure value; a
failure caught at the generating stage returns the step to `idle`, leaves
`problem_description` populated with the transcribed text, and leaves
`ai_solution` unset (it was unset before the submission and the catch
block does not touch it). -/
theorem processAudio_failure_recovery
    (st : PipelineState) (e eg : FnError) (text : String)
    (generateResult : String → Except FnError String)
    (hsol : st.aiSolution = "") :
    ((processAudio st (Except.error e) generateResult).state.processingStep = "idle" ∧
     (processAudio st (Except.error e) generateResult).state.problemDescription =
       st.problemDescription) ∧
    ((processAudio st (Except.ok text) (fun _ => Except.error eg)).state.processingStep = "idle" ∧
     (processAudio st (Except.ok text) (fun _ => Except.error eg)).state.problemDescription =
       text ∧
     (processAudio st (Except.ok text) (fun _ => Except.error eg)).state.aiSolution = "") := by
  refine ⟨⟨rfl, rfl⟩, rfl, rfl, ?_⟩
  simpa [processAudio] using hsol

/-- Claim C6 witness. -/
theorem processAudio_failure_recovery_witness :
    (PipelineState.mk "transcribing" false "antes" "").aiSolution = "" ∧
    (((processAudio (PipelineState.mk "transcribing" false "antes" "")
        (Except.error (FnError.mk (some 500)))
        (fun _ => Except.ok "sol")).state.processingStep = "idle" ∧
      (processAudio (PipelineState.mk "transcribing" false "antes" "")
        (Except.error (FnError.mk (some 500)))
        (fun _ => Except.ok "sol")).state.problemDescription =
        (PipelineState.mk "transcribing" false "antes" "").problemDescription) ∧
     ((processAudio (PipelineState.mk "transcribing" false "antes" "")
        (Except.ok "motor faz ruido")
        (fun _ => Except.error (FnError.mk (some 429)))).state.processingStep = "idle" ∧
      (processAudio (PipelineState.mk "transcribing" false "antes" "")
        (Except.ok "motor faz ruido")
        (fun _ => Except.error (FnError.mk (some 429)))).state.problemDescription =
        "motor faz ruido" ∧
      (processAudio (PipelineState.mk "transcribing" false "antes" "")
        (Except.ok "motor faz ruido")
        (fun _ => Except.error (FnError.mk (some 429)))).state.aiSolution = "")) :=
  ⟨rfl,
   processAudio_failure_recovery (PipelineState.mk "transcribing" false "antes" "")
     (FnError.mk (some 500)) (FnError.mk (some 429)) "motor faz ruido"
     (fun _ => Except.ok "sol") rfl⟩

/-- Claim C7 counterexample: a transcription failure, a generation
failure, and a rate-limit (status 429) generation failure all show the
identical generic processing toast, so these three failures are not
distinguishable from one another as the claim states. -/
theorem pipeline_failure_toasts_not_distinct :
    (processAudio (PipelineState.mk "transcribing" false "" "")
       (Except.error (FnError.mk (some 500))) (fun _ => Except.ok "sol")).toast =
      (processAudio (PipelineState.mk "transcribing" false "" "")
         (Except.ok "motor") (fun _ => Except.error (FnError.mk none))).toast ∧
    (processAudio (PipelineState.mk "transcribing" false "" "")
       (Except.ok "motor") (fun _ => Except.error (FnError.mk (some 429)))).toast =
      (processAudio (PipelineState.mk "transcribing" false "" "")
         (Except.ok "motor") (fun _ => Except.error (FnError.mk none))).toast ∧
    (processAudio (PipelineState.mk "transcribing" false "" "")
       (Except.ok "motor") (fun _ => Except.error (FnError.mk (some 429)))).toast =
      processingErrorToast :=
  ⟨rfl, rfl, rfl⟩

/-- Claim C7 amended: only the device-access failure has a distinct,
stage-specific message (the microphone toast, different from the generic
processing toast); transcription failures, generation failures, and
rate-limit (429) generation failures all show the same generic processing
toast. -/
theorem only_device_failure_toast_distinct
    (st : PipelineState) (e eg : FnError) (text : String)
    (generateResult : String → Except FnError String) :
    (startRecording false st).2 = some micErrorToast ∧
    micErrorToast ≠ processingErrorToast ∧
    (processAudio st (Except.error e) generateResult).toast = processingErrorToast ∧
    (processAudio st (Except.ok text) (fun _ => Except.error eg)).toast =
      processingErrorToast :=
  ⟨rfl, by decide, rfl, rfl⟩

/-- Claim C8: the generate-solution handler maps an upstream 429 to a 429
rate-limit response, an upstream 402 to a 402 payment-required response,
any other upstream failure and a missing upstream credential to a 500
response, keeps the three kinds distinguishable by status code, and never
calls the upstream gateway more than once. -/
theorem generate_solution_error_mapping
    (desc text : String) (s : Nat) (gw : GatewayResult)
    (hd : desc ≠ "") (h429 : s ≠ 429) (h402 : s ≠ 402) :
    (generateSolutionServe (some desc) true (GatewayResult.httpError 429 text)).1.status = 429 ∧
    (generateSolutionServe (some desc) true (GatewayResult.httpError 402 text)).1.status = 402 ∧
    (generateSolutionServe (some desc) true (GatewayResult.httpError s text)).1.status = 500 ∧
    (generateSolutionServe (some desc) false gw).1.status = 500 ∧
    (generateSolutionServe (some desc) true gw).2 ≤ 1 := by
  have hcond : ¬ ((some desc : Option String) = none ∨ (some desc : Option String) = some "") := by
    simp [hd]
  refine ⟨?_, ?_, ?_, ?_, generateSolutionServe_calls_le_one (some desc) true gw⟩
  · unfold generateSolutionServe
    rw [if_neg hcond]
    rfl
  · unfold generateSolutionServe
    rw [if_neg hcond]
    rfl
  · unfold generateSolutionServe
    rw [if_neg hcond]
    simp [h429, h402, caughtResponse]
  · unfold generateSolutionServe
    rw [if_neg hcond]
    rfl

/-- Claim C8 witness. -/
theorem generate_solution_error_mapping_witness :
    ("motor" : String) ≠ "" ∧ (503 : Nat) ≠ 429 ∧ (503 : Nat) ≠ 402 ∧
    ((generateSolutionServe (some "motor") true
        (GatewayResult.httpError 429 "limite")).1.status = 429 ∧
     (generateSolutionServe (some "motor") true
        (GatewayResult.httpError 402 "limite")).1.status = 402 ∧
     (generateSolutionServe (some "motor") true
        (GatewayResult.httpError 503 "limite")).1.status = 500 ∧
     (generateSolutionServe (some "motor") false
        (GatewayResult.ok (some "plano"))).1.status = 500 ∧
     (generateSolutionServe (some "motor") true (GatewayResult.ok (some "plano"))).2 ≤ 1) :=
  ⟨by decide, by decide, by decide,
   generate_solution_error_mapping "motor" "limite" 503 (GatewayResult.ok (some "plano"))
     (by decide) (by decide) (by decide)⟩

/-- Claim C9: the start/stop recording control is disabled in both the
`transcribing` and the `generating` pipeline states, so no new recording
can start while transcription or generation is in flight. -/
theorem mic_button_disabled_while_processing
    (step : String) (h : step = "transcribing" ∨ step = "generating") :
    micButtonDisabled step = true := by
  rcases h with h | h <;> subst h <;> decide

/-- Claim C9 witness. -/
theorem mic_button_disabled_while_processing_witness :
    (("transcribing" : String) = "transcribing" ∨ ("transcribing" : String) = "generating") ∧
    micButtonDisabled "transcribing" = true :=
  ⟨Or.inl rfl, mic_button_disabled_while_processing "transcribing" (Or.inl rfl)⟩

/-- Claim C10: after a successful `updateStatus` to `resolved`, the
locally cached copy changes only in `status`; its `resolved_at` and every
other field keep their prior in-memory values, even though the same call
set `resolved_at` on the stored row. -/
theorem updateStatus_local_copy_frame (r : InterventionRow) (now : Nat) :
    (updateStatusLocal r "resolved").status = "resolved" ∧
    (updateStatusLocal r "resolved").resolved_at = r.resolved_at ∧
    (updateStatusLocal r "resolved").machine_id = r.machine_id ∧
    (updateStatusLocal r "resolved").technician_id = r.technician_id ∧
    (updateStatusLocal r "resolved").problem_description = r.problem_description ∧
    (updateStatusLocal r "resolved").ai_solution = r.ai_solution ∧
    (updateStatusLocal r "resolved").priority = r.priority ∧
    (updateStatusStore r "resolved" now).resolved_at = some now := by
  refine ⟨rfl, rfl, rfl, rfl, rfl, rfl, rfl, ?_⟩
  simp [updateStatusStore, applyUpdate, updateStatusPayload]
